import Mathlib

/-!
# FocusGuard proctoring core — shallow embedding

Shallow embedding of the signal-to-event pipeline of the focusgaurd
repository, and proofs about it.

Sources embedded:
* the `ProctoringDashboard` component (`calculateIntegrityScore`, `addEvent`,
  `handleDetectionResult`, `startSession`, `clearLog`),
* the `useAlerts` hook (`addAlert` with its per-type cooldown map),
* the `useDetection` hook (`normalizeLabel`, the focus-loss tracker and the
  `focusLossDuration` field of `DetectionResult`),
* the Express backend (`POST /api/sessions`, `POST /api/sessions/:id/events`,
  `GET /api/sessions/:id/report`).

Conventions: JavaScript `Date` values are modelled as `Nat` milliseconds since
the epoch (a browser clock is positive); durations that the code keeps in
seconds are modelled in milliseconds, so the code's threshold `5` (seconds)
appears as `5000` and `10` as `10000`.  Random event ids
(`Date.now()-Math.random()`) are omitted: no claim mentions them.
-/

namespace FocusGuard

/-- Event severities, from `types/proctoring.ts`. -/
inductive Severity where
  | low
  | medium
  | high
deriving DecidableEq, Repr

/-- The six event types of `ProctoringEvent.type` in `types/proctoring.ts`
(also the `enum` of the backend's Mongo `ProctoringEventSchema`). -/
inductive EventType where
  | focus_lost
  | no_face
  | multiple_faces
  | phone_detected
  | notes_detected
  | device_detected
deriving DecidableEq, Repr

/-- `ProctoringEvent` from `types/proctoring.ts` (random `id` omitted,
timestamp and duration in milliseconds). -/
structure ProctoringEvent where
  type : EventType
  timestamp : Nat
  description : String
  severity : Severity
  duration : Option Nat
deriving DecidableEq, Repr

/-- Session status strings; the backend uses `active`/`completed`, the
frontend type also lists `paused`. -/
inductive SessionStatus where
  | active
  | completed
  | paused
deriving DecidableEq, Repr

/-- `InterviewSession` from `types/proctoring.ts` / the backend `Session`
model. -/
structure InterviewSession where
  id : String
  candidateName : String
  startTime : Nat
  endTime : Option Nat
  events : List ProctoringEvent
  integrityScore : Int
  status : SessionStatus
deriving DecidableEq, Repr

/-! ## Integrity scorer

`calculateIntegrityScore` in `ProctoringDashboard` walks the event list with
a mutable `score` starting at 100, subtracting 10/5/2 per high/medium/low
event, and finally clamps with `Math.max(0, score)`. -/

/-- The `switch (event.severity)` body of `calculateIntegrityScore`. -/
def severityPenalty : Severity → Int
  | .high => 10
  | .medium => 5
  | .low => 2

/-- `calculateIntegrityScore` from `ProctoringDashboard`. -/
def calculateIntegrityScore (events : List ProctoringEvent) : Int :=
  let score := events.foldl (fun score event => score - severityPenalty event.severity) 100
  max 0 score

/-- Count of events of a given severity. -/
def countSeverity (s : Severity) (events : List ProctoringEvent) : Nat :=
  events.countP (fun e => e.severity == s)

/-- Count of events of a given type. -/
def countType (t : EventType) (events : List ProctoringEvent) : Nat :=
  events.countP (fun e => e.type == t)

/-- The score the spec's formula predicts. -/
def specScore (events : List ProctoringEvent) : Int :=
  max 0 (100 - 10 * (countSeverity .high events : Int)
            - 5 * (countSeverity .medium events : Int)
            - 2 * (countSeverity .low events : Int))

/-! ## Backend: `POST /api/sessions/:id/events`

The route pushes the new event onto `session.events` and recomputes the
integrity score from scratch with the same loop as the dashboard. -/

/-- The `POST /api/sessions/:id/events` handler's state change on a found
session (`server.js`): push the event, recompute the score fresh. -/
def serverAddEvent (session : InterviewSession) (event : ProctoringEvent) : InterviewSession :=
  let events := session.events ++ [event]
  let score := events.foldl (fun score e => score - severityPenalty e.severity) 100
  { session with events := events, integrityScore := max 0 score }

/-! ### Lemmas for the scorer -/

theorem foldl_sub_penalty (l : List ProctoringEvent) (a : Int) :
    l.foldl (fun score event => score - severityPenalty event.severity) a
      = a - (l.map (fun e => severityPenalty e.severity)).sum := by
  induction l generalizing a with
  | nil => simp
  | cons e t ih =>
    simp only [List.foldl_cons, List.map_cons, List.sum_cons, ih]
    ring

theorem sum_penalty_eq_counts (l : List ProctoringEvent) :
    (l.map (fun e => severityPenalty e.severity)).sum
      = 10 * (countSeverity .high l : Int) + 5 * (countSeverity .medium l : Int)
          + 2 * (countSeverity .low l : Int) := by
  induction l with
  | nil => simp [countSeverity]
  | cons e t ih =>
    have hc : ∀ s, countSeverity s (e :: t)
        = (if e.severity == s then 1 else 0) + countSeverity s t := by
      intro s
      simp [countSeverity, List.countP_cons]
      omega
    rw [List.map_cons, List.sum_cons, ih, hc .high, hc .medium, hc .low]
    cases h : e.severity <;> simp [severityPenalty] <;> ring

theorem calculateIntegrityScore_eq_specScore (events : List ProctoringEvent) :
    calculateIntegrityScore events = specScore events := by
  simp only [calculateIntegrityScore, specScore, foldl_sub_penalty, sum_penalty_eq_counts]
  ring_nf

/-- C1: the integrity score recomputed after any event-log mutation equals
`max(0, 100 − 10·#high − 5·#medium − 2·#low)`: this holds for the dashboard's
`calculateIntegrityScore` on every list, and for the backend route's
recomputation after appending an event; consequently the score is invariant
under permutation of the event list. -/
theorem integrityScore_spec :
    (∀ events : List ProctoringEvent, calculateIntegrityScore events = specScore events) ∧
    (∀ (s : InterviewSession) (e : ProctoringEvent),
        (serverAddEvent s e).integrityScore = specScore (s.events ++ [e])) ∧
    (∀ l l' : List ProctoringEvent, l.Perm l' →
        calculateIntegrityScore l = calculateIntegrityScore l') := by
  refine ⟨calculateIntegrityScore_eq_specScore, ?_, ?_⟩
  · intro s e
    have := calculateIntegrityScore_eq_specScore (s.events ++ [e])
    simpa [serverAddEvent, calculateIntegrityScore] using this
  · intro l l' h
    simp only [calculateIntegrityScore_eq_specScore, specScore, countSeverity]
    rw [h.countP_eq, h.countP_eq, h.countP_eq]

/-- A concrete high-severity event. -/
def evHigh : ProctoringEvent :=
  { type := .no_face, timestamp := 1000, description := "No face detected for 11 seconds",
    severity := .high, duration := some 11000 }

/-- A concrete medium-severity event. -/
def evMedium : ProctoringEvent :=
  { type := .focus_lost, timestamp := 2000, description := "Looking away for 6 seconds",
    severity := .medium, duration := some 6000 }

/-- A concrete low-severity event. -/
def evLow : ProctoringEvent :=
  { type := .device_detected, timestamp := 3000, description := "Background noise",
    severity := .low, duration := none }

/-- Witness for `integrityScore_spec` at a concrete three-event log: the
score is `100 − 10 − 5 − 2 = 83` and swapping two events does not change
it. -/
theorem integrityScore_spec_witness :
    calculateIntegrityScore [evHigh, evMedium, evLow]
        = specScore [evHigh, evMedium, evLow] ∧
    calculateIntegrityScore [evHigh, evMedium, evLow]
        = calculateIntegrityScore [evMedium, evHigh, evLow] ∧
    calculateIntegrityScore [evHigh, evMedium, evLow] = 83 := by
  refine ⟨integrityScore_spec.1 [evHigh, evMedium, evLow],
    integrityScore_spec.2.2 _ _ (List.Perm.swap evMedium evHigh [evLow]), by decide⟩

/-! ## Detection results and the dashboard tick

`handleDetectionResult` in `ProctoringDashboard` receives a
`DetectionResult` (plus the latest `audioResult` from `useAudioDetection`)
and appends zero or more events via `addEvent`, which prepends
(`setEvents(prev => [newEvent, ...prev])`).  Only the fields the dashboard
reads are modelled. -/

/-- `DetectionResult` fields read by `handleDetectionResult`
(`focusScore`, `confidence`, `eyeClosed`, `drowsiness` are unused there).
`focusLossDuration` is `none` for JS `undefined`. -/
structure DetectionResult where
  faceDetected : Bool
  faceCount : Nat
  objectsDetected : List String
  isLookingAway : Bool
  focusLossDuration : Option Nat
deriving DecidableEq, Repr

/-- The two boolean audio signals read by `handleDetectionResult`. -/
structure AudioDetectionResult where
  backgroundNoise : Bool
  multipleVoices : Bool
deriving DecidableEq, Repr

/-- The dashboard state that `handleDetectionResult` reads and writes:
the `noFaceStart` ref and the event log (newest first). -/
structure DashState where
  noFaceStart : Option Nat
  events : List ProctoringEvent
deriving DecidableEq, Repr

/-- `Math.round` of a millisecond duration expressed in seconds
(round half up, all durations are nonnegative). -/
def jsRound (ms : Nat) : Nat :=
  (ms + 500) / 1000

/-- JS `String.prototype.toLowerCase`, as the per-character lowercase map
(the labels involved are ASCII). -/
def jsToLower (s : String) : String :=
  ⟨s.data.map Char.toLower⟩

/-- JS `String.prototype.trim`: drop leading and trailing whitespace. -/
def jsTrim (s : String) : String :=
  ⟨((s.data.dropWhile Char.isWhitespace).reverse.dropWhile Char.isWhitespace).reverse⟩

/-- `addEvent` in `ProctoringDashboard`: build the event and prepend it to
the log (the toast and the fire-and-forget backend POST carry no state). -/
def addEvent (st : DashState) (type : EventType) (now : Nat)
    (description : String) (severity : Severity) (duration : Option Nat) : DashState :=
  { st with
    events := { type := type, timestamp := now, description := description,
                severity := severity, duration := duration } :: st.events }

/-- The focus-loss block of `handleDetectionResult`: `result.isLookingAway
&& result.focusLossDuration && result.focusLossDuration > 5` (a
`focusLossDuration` of 0 is falsy in JS; `none` models `undefined`). -/
def focusStep (st : DashState) (now : Nat) (result : DetectionResult) : DashState :=
  if result.isLookingAway then
    match result.focusLossDuration with
    | some d =>
      if 5000 < d then
        addEvent st .focus_lost now
          ("Looking away for " ++ toString (jsRound d) ++ " seconds") .medium (some d)
      else st
    | none => st
  else st

/-- The no-face block of `handleDetectionResult`: start the timer on the
first absent tick, fire a high-severity event once the elapsed time exceeds
10 s and reset the timer, clear the timer whenever a face is present. -/
def noFaceStep (st : DashState) (now : Nat) (result : DetectionResult) : DashState :=
  if !result.faceDetected then
    match st.noFaceStart with
    | none => { st with noFaceStart := some now }
    | some start =>
      let duration := now - start
      if 10000 < duration then
        let st := addEvent st .no_face now
          ("No face detected for " ++ toString (jsRound duration) ++ " seconds")
          .high (some duration)
        { st with noFaceStart := none }
      else st
  else { st with noFaceStart := none }

/-- The multiple-faces block of `handleDetectionResult`. -/
def facesStep (st : DashState) (now : Nat) (result : DetectionResult) : DashState :=
  if 1 < result.faceCount then
    addEvent st .multiple_faces now
      (toString result.faceCount ++ " faces detected") .high none
  else st

/-- The `switch (jsToLower objectCase())` inside the
`result.objectsDetected.forEach` of `handleDetectionResult` (each case also
raises an alert; the alert side is modelled separately by `addAlert`). -/
def classifyObject (now : Nat) (st : DashState) (object : String) : DashState :=
  if jsToLower object == "phone" then
    addEvent st .phone_detected now "Mobile phone detected in frame" .high none
  else if jsToLower object == "book" || jsToLower object == "paper" then
    addEvent st .notes_detected now "Books or notes detected" .medium none
  else
    addEvent st .device_detected now
      ("Unauthorized device detected: " ++ object) .medium none

/-- The object loop of `handleDetectionResult`. -/
def objectsStep (st : DashState) (now : Nat) (result : DetectionResult) : DashState :=
  result.objectsDetected.foldl (classifyObject now) st

/-- The audio block of `handleDetectionResult`: background noise only
raises an alert (no event); multiple voices raises an alert and appends a
high-severity `device_detected` event. -/
def audioStep (audioResult : AudioDetectionResult) (st : DashState) (now : Nat) : DashState :=
  if audioResult.multipleVoices then
    addEvent st .device_detected now
      "Multiple voices detected - possible unauthorized person" .high none
  else st

/-- `handleDetectionResult` in `ProctoringDashboard`: the five blocks in
source order (focus loss, no face, multiple faces, objects, audio). -/
def handleDetectionResult (audioResult : AudioDetectionResult) (st : DashState)
    (now : Nat) (result : DetectionResult) : DashState :=
  audioStep audioResult
    (objectsStep (facesStep (noFaceStep (focusStep st now result) now result) now result)
      now result) now

/-! ## The focus-loss tracker of `useDetection.detectFrame`

`detectFrame` keeps `focusLossStartRef`: set on the first looking-away
tick, cleared when focus returns; later in the same tick it computes
`focusLossDuration = (now − start)/1000` and puts it in the
`DetectionResult` only when it is `> 0` (else `undefined`). -/

/-- The `focusLossStartRef` bookkeeping in `detectFrame`. -/
def trackFocus (focusLossStart : Option Nat) (now : Nat) (isLookingAway : Bool) : Option Nat :=
  if isLookingAway then
    match focusLossStart with
    | none => some now
    | some start => some start
  else none

/-- The `focusLossDuration` field computation of `detectFrame`, including
the `focusLossDuration > 0 ? focusLossDuration : undefined` guard. -/
def focusLossDurationOf (focusLossStart : Option Nat) (now : Nat) : Option Nat :=
  match focusLossStart with
  | some start =>
    let d := now - start
    if 0 < d then some d else none
  | none => none

/-! ## `normalizeLabel` from `useDetection.detectFrame` -/

/-- JS `String.prototype.includes` on our strings. -/
def strContains (s pat : String) : Bool :=
  (List.range (s.data.length + 1)).any (fun i => pat.data.isPrefixOf (s.data.drop i))

/-- `normalizeLabel` from `useDetection.detectFrame`: maps a raw detected
class name to a canonical label ("phone", "notes", "device",
"audio device", "medicine") and otherwise returns the raw label. -/
def normalizeLabel (label : String) : String :=
  let l := jsToLower label
  if strContains l "cell phone" || l == "phone" || strContains l "mobile" ||
      strContains l "smartphone" || strContains l "iphone" || strContains l "android" then
    "phone"
  else if l == "book" || l == "books" || l == "textbook" || l == "notebook" ||
      l == "paper" || l == "document" || l == "note" || l == "notes" || l == "sheet" then
    "notes"
  else if l == "laptop" || l == "computer" || l == "tablet" || l == "ipad" ||
      l == "surface" || l == "macbook" || l == "kindle" then
    "device"
  else if strContains l "headphone" || strContains l "earphone" || strContains l "earbud" ||
      strContains l "headset" || strContains l "airpod" then
    "audio device"
  else if l == "bottle" || strContains l "bottle" || l == "cup" || l == "vial" ||
      l == "container" || strContains l "medicine" || strContains l "pill" ||
      strContains l "drug" then
    "medicine"
  else label

/-! ## Whole-pipeline ticks

One sampling tick: `detectFrame` turns the raw per-frame signals into a
`DetectionResult` (running the focus tracker and normalizing the relevant
detected object labels), then the dashboard's `handleDetectionResult`
consumes it.  `objectsDetected` in `RawTick` holds the raw class names that
passed `detectFrame`'s relevance/confidence filter; the filter itself
involves no state and no claim quantifies over it. -/

/-- The raw inputs of one tick. -/
structure RawTick where
  now : Nat
  isLookingAway : Bool
  faceDetected : Bool
  faceCount : Nat
  objectsDetected : List String
  audio : AudioDetectionResult
deriving DecidableEq, Repr

/-- The pipeline state: `detectFrame`'s `focusLossStartRef` plus the
dashboard state. -/
structure PipeState where
  focusLossStart : Option Nat
  dash : DashState
deriving DecidableEq, Repr

/-- One tick through `detectFrame` + `handleDetectionResult`. -/
def pipelineStep (s : PipeState) (t : RawTick) : PipeState :=
  let focusLossStart := trackFocus s.focusLossStart t.now t.isLookingAway
  let result : DetectionResult :=
    { faceDetected := t.faceDetected
      faceCount := t.faceCount
      objectsDetected := t.objectsDetected.map normalizeLabel
      isLookingAway := t.isLookingAway
      focusLossDuration := focusLossDurationOf focusLossStart t.now }
  { focusLossStart := focusLossStart
    dash := handleDetectionResult t.audio s.dash t.now result }

/-- A run of consecutive ticks. -/
def runTicks (s : PipeState) (ts : List RawTick) : PipeState :=
  ts.foldl pipelineStep s

/-- The initial pipeline state (no trackers armed, empty log). -/
def initPipe : PipeState :=
  { focusLossStart := none, dash := { noFaceStart := none, events := [] } }

/-! ## Counting events through the tick steps -/

theorem countType_addEvent (τ ty : EventType) (st : DashState) (now : Nat)
    (desc : String) (sev : Severity) (dur : Option Nat) :
    countType τ (addEvent st ty now desc sev dur).events
      = countType τ st.events + (if ty = τ then 1 else 0) := by
  simp [addEvent, countType, List.countP_cons]

theorem noFaceStart_addEvent (st : DashState) (ty : EventType) (now : Nat)
    (desc : String) (sev : Severity) (dur : Option Nat) :
    (addEvent st ty now desc sev dur).noFaceStart = st.noFaceStart := rfl

theorem countType_focusStep (τ : EventType) (h : τ ≠ .focus_lost)
    (st : DashState) (now : Nat) (r : DetectionResult) :
    countType τ (focusStep st now r).events = countType τ st.events := by
  unfold focusStep
  split
  · cases r.focusLossDuration with
    | none => rfl
    | some d =>
      dsimp only
      split
      · simp [countType_addEvent, Ne.symm h]
      · rfl
  · rfl

theorem countType_noFaceStep (τ : EventType) (h : τ ≠ .no_face)
    (st : DashState) (now : Nat) (r : DetectionResult) :
    countType τ (noFaceStep st now r).events = countType τ st.events := by
  unfold noFaceStep
  split
  · cases hs : st.noFaceStart with
    | none => rfl
    | some start =>
      dsimp only
      split
      · simp [countType_addEvent, Ne.symm h]
      · rfl
  · rfl

theorem countType_facesStep (τ : EventType) (h : τ ≠ .multiple_faces)
    (st : DashState) (now : Nat) (r : DetectionResult) :
    countType τ (facesStep st now r).events = countType τ st.events := by
  unfold facesStep
  split
  · simp [countType_addEvent, Ne.symm h]
  · rfl

theorem countType_classifyObject (τ : EventType) (h1 : τ ≠ .phone_detected)
    (h2 : τ ≠ .notes_detected) (h3 : τ ≠ .device_detected)
    (now : Nat) (st : DashState) (ob : String) :
    countType τ (classifyObject now st ob).events = countType τ st.events := by
  unfold classifyObject
  split
  · simp [countType_addEvent, Ne.symm h1]
  · split
    · simp [countType_addEvent, Ne.symm h2]
    · simp [countType_addEvent, Ne.symm h3]

theorem countType_objectsStep (τ : EventType) (h1 : τ ≠ .phone_detected)
    (h2 : τ ≠ .notes_detected) (h3 : τ ≠ .device_detected)
    (st : DashState) (now : Nat) (r : DetectionResult) :
    countType τ (objectsStep st now r).events = countType τ st.events := by
  unfold objectsStep
  generalize r.objectsDetected = l
  induction l generalizing st with
  | nil => rfl
  | cons ob t ih =>
    simp only [List.foldl_cons]
    rw [ih, countType_classifyObject τ h1 h2 h3]

theorem countType_audioStep (τ : EventType) (h : τ ≠ .device_detected)
    (a : AudioDetectionResult) (st : DashState) (now : Nat) :
    countType τ (audioStep a st now).events = countType τ st.events := by
  unfold audioStep
  split
  · simp [countType_addEvent, Ne.symm h]
  · rfl

theorem noFaceStart_focusStep (st : DashState) (now : Nat) (r : DetectionResult) :
    (focusStep st now r).noFaceStart = st.noFaceStart := by
  unfold focusStep
  split
  · cases r.focusLossDuration with
    | none => rfl
    | some d =>
      dsimp only
      split <;> rfl
  · rfl

theorem noFaceStart_facesStep (st : DashState) (now : Nat) (r : DetectionResult) :
    (facesStep st now r).noFaceStart = st.noFaceStart := by
  unfold facesStep
  split <;> rfl

theorem noFaceStart_classifyObject (now : Nat) (st : DashState) (ob : String) :
    (classifyObject now st ob).noFaceStart = st.noFaceStart := by
  unfold classifyObject
  split
  · rfl
  · split <;> rfl

theorem noFaceStart_objectsStep (st : DashState) (now : Nat) (r : DetectionResult) :
    (objectsStep st now r).noFaceStart = st.noFaceStart := by
  unfold objectsStep
  generalize r.objectsDetected = l
  induction l generalizing st with
  | nil => rfl
  | cons ob t ih =>
    simp only [List.foldl_cons]
    rw [ih, noFaceStart_classifyObject]

theorem noFaceStart_audioStep (a : AudioDetectionResult) (st : DashState) (now : Nat) :
    (audioStep a st now).noFaceStart = st.noFaceStart := by
  unfold audioStep
  split <;> rfl

theorem mem_events_addEvent (x : ProctoringEvent) (st : DashState) (ty : EventType)
    (now : Nat) (desc : String) (sev : Severity) (dur : Option Nat)
    (h : x ∈ st.events) : x ∈ (addEvent st ty now desc sev dur).events :=
  List.mem_cons_of_mem _ h

theorem mem_events_facesStep (x : ProctoringEvent) (st : DashState) (now : Nat)
    (r : DetectionResult) (h : x ∈ st.events) : x ∈ (facesStep st now r).events := by
  unfold facesStep
  split
  · exact mem_events_addEvent _ _ _ _ _ _ _ h
  · exact h

theorem mem_events_classifyObject (x : ProctoringEvent) (now : Nat) (st : DashState)
    (ob : String) (h : x ∈ st.events) : x ∈ (classifyObject now st ob).events := by
  unfold classifyObject
  split
  · exact mem_events_addEvent _ _ _ _ _ _ _ h
  · split <;> exact mem_events_addEvent _ _ _ _ _ _ _ h

theorem mem_events_objectsStep (x : ProctoringEvent) (st : DashState) (now : Nat)
    (r : DetectionResult) (h : x ∈ st.events) : x ∈ (objectsStep st now r).events := by
  unfold objectsStep
  generalize r.objectsDetected = l
  induction l generalizing st with
  | nil => exact h
  | cons ob t ih =>
    simp only [List.foldl_cons]
    exact ih _ (mem_events_classifyObject _ _ _ _ h)

theorem mem_events_audioStep (x : ProctoringEvent) (a : AudioDetectionResult)
    (st : DashState) (now : Nat) (h : x ∈ st.events) : x ∈ (audioStep a st now).events := by
  unfold audioStep
  split
  · exact mem_events_addEvent _ _ _ _ _ _ _ h
  · exact h

/-! ## Per-tick counting of each event type -/

theorem countType_mf_tick (a : AudioDetectionResult) (st : DashState) (now : Nat)
    (r : DetectionResult) :
    countType .multiple_faces (handleDetectionResult a st now r).events
      = countType .multiple_faces st.events + (if 1 < r.faceCount then 1 else 0) := by
  unfold handleDetectionResult
  rw [countType_audioStep _ (by decide),
      countType_objectsStep _ (by decide) (by decide) (by decide)]
  unfold facesStep
  split
  · rw [countType_addEvent, countType_noFaceStep _ (by decide),
        countType_focusStep _ (by decide)]
    simp
  · rw [countType_noFaceStep _ (by decide), countType_focusStep _ (by decide)]
    simp_all

theorem countType_fl_tick (a : AudioDetectionResult) (st : DashState) (now : Nat)
    (r : DetectionResult) :
    countType .focus_lost (handleDetectionResult a st now r).events
      = countType .focus_lost st.events
        + (if r.isLookingAway then
            match r.focusLossDuration with
            | some d => if 5000 < d then 1 else 0
            | none => 0
          else 0) := by
  unfold handleDetectionResult
  rw [countType_audioStep _ (by decide),
      countType_objectsStep _ (by decide) (by decide) (by decide),
      countType_facesStep _ (by decide),
      countType_noFaceStep _ (by decide)]
  unfold focusStep
  split
  · cases r.focusLossDuration with
    | none => simp
    | some d =>
      dsimp only
      split
      · rw [countType_addEvent]
        simp
      · simp
  · simp

theorem countType_nf_tick (a : AudioDetectionResult) (st : DashState) (now : Nat)
    (r : DetectionResult) :
    countType .no_face (handleDetectionResult a st now r).events
      = countType .no_face st.events
        + (if !r.faceDetected then
            match st.noFaceStart with
            | some start => if 10000 < now - start then 1 else 0
            | none => 0
          else 0) := by
  unfold handleDetectionResult
  rw [countType_audioStep _ (by decide),
      countType_objectsStep _ (by decide) (by decide) (by decide),
      countType_facesStep _ (by decide)]
  unfold noFaceStep
  rw [noFaceStart_focusStep]
  split
  · cases st.noFaceStart with
    | none =>
      dsimp only
      rw [countType_focusStep _ (by decide)]
      simp [countType]
    | some start =>
      dsimp only
      split
      · rw [countType_addEvent, countType_focusStep _ (by decide)]
        simp [countType]
      · rw [countType_focusStep _ (by decide)]
        simp
  · rw [countType_focusStep _ (by decide)]
    simp [countType]

theorem noFaceStart_tick (a : AudioDetectionResult) (st : DashState) (now : Nat)
    (r : DetectionResult) :
    (handleDetectionResult a st now r).noFaceStart
      = (if !r.faceDetected then
          match st.noFaceStart with
          | none => some now
          | some start => if 10000 < now - start then none else some start
        else none) := by
  unfold handleDetectionResult
  rw [noFaceStart_audioStep, noFaceStart_objectsStep, noFaceStart_facesStep]
  unfold noFaceStep
  rw [noFaceStart_focusStep]
  split
  · cases hs : st.noFaceStart with
    | none => rfl
    | some start =>
      dsimp only
      split <;> simp [noFaceStart_focusStep, hs]
  · simp [noFaceStart_focusStep]

/-! ## Concrete tick traces -/

/-- Silent audio snapshot. -/
def quietAudio : AudioDetectionResult :=
  { backgroundNoise := false, multipleVoices := false }

/-- A tick that sees two faces and nothing else. -/
def twoFacesTick (t : Nat) : RawTick :=
  { now := t, isLookingAway := false, faceDetected := true, faceCount := 2,
    objectsDetected := [], audio := quietAudio }

/-- A tick on which the candidate is looking away (one face present). -/
def lookAwayTick (t : Nat) : RawTick :=
  { now := t, isLookingAway := true, faceDetected := true, faceCount := 1,
    objectsDetected := [], audio := quietAudio }

/-- A tick on which no face is detected. -/
def absentTick (t : Nat) : RawTick :=
  { now := t, isLookingAway := false, faceDetected := false, faceCount := 0,
    objectsDetected := [], audio := quietAudio }

/-- A detection result with two faces and nothing else. -/
def twoFacesResult : DetectionResult :=
  { faceDetected := true, faceCount := 2, objectsDetected := [],
    isLookingAway := false, focusLossDuration := none }

/-- C2 counterexample: two `multiple_faces` ticks 1000 ms apart — well inside
the alleged 5 s per-type event cooldown — append TWO `multiple_faces` events,
not one: `addEvent` has no cooldown (only `useAlerts.addAlert` has one). -/
theorem eventCooldown_cex :
    countType .multiple_faces
        (runTicks initPipe [twoFacesTick 0, twoFacesTick 1000]).dash.events = 2 ∧
    countType .multiple_faces
        (runTicks initPipe [twoFacesTick 0, twoFacesTick 1000]).dash.events ≠ 1 := by
  decide

/-- C4 counterexample: with the 1000 ms sampling tick and the condition
continuously true from `t = 0`, the focus-loss signal emits a `focus_lost`
event on EVERY tick past the 5 s threshold — two events by `t = 7000` —
because `focusLossStartRef` is only reset when focus returns, never on
emission; the claim's "exactly once" fails. -/
theorem focusEmission_cex :
    countType .focus_lost
        (runTicks initPipe ((List.range 8).map (fun i => lookAwayTick (1000 * i)))).dash.events
      = 2 ∧
    countType .focus_lost
        (runTicks initPipe ((List.range 8).map (fun i => lookAwayTick (1000 * i)))).dash.events
      ≠ 1 := by
  decide

/-- C4 amended, per pipeline tick (`detectFrame` tracker +
`handleDetectionResult`): while the looking-away condition has been
continuously true for at most 5 s no `focus_lost` event is emitted; on every
tick with continuously-true time strictly above 5 s one `focus_lost` event is
emitted (not exactly once per occurrence — the start time is NOT reset on
emission); when the condition clears, the start time resets. -/
theorem focusEmission_amended :
    ∀ (s : PipeState) (t : RawTick),
      (t.isLookingAway = false →
        (pipelineStep s t).focusLossStart = none ∧
        countType .focus_lost (pipelineStep s t).dash.events
          = countType .focus_lost s.dash.events) ∧
      (t.isLookingAway = true → s.focusLossStart = none →
        (pipelineStep s t).focusLossStart = some t.now ∧
        countType .focus_lost (pipelineStep s t).dash.events
          = countType .focus_lost s.dash.events) ∧
      (∀ start, t.isLookingAway = true → s.focusLossStart = some start →
        t.now - start ≤ 5000 →
        (pipelineStep s t).focusLossStart = some start ∧
        countType .focus_lost (pipelineStep s t).dash.events
          = countType .focus_lost s.dash.events) ∧
      (∀ start, t.isLookingAway = true → s.focusLossStart = some start →
        5000 < t.now - start →
        (pipelineStep s t).focusLossStart = some start ∧
        countType .focus_lost (pipelineStep s t).dash.events
          = countType .focus_lost s.dash.events + 1) := by
  intro s t
  refine ⟨?_, ?_, ?_, ?_⟩
  · intro h
    constructor
    · simp [pipelineStep, trackFocus, h]
    · simp [pipelineStep, countType_fl_tick, h]
  · intro h hs
    constructor
    · simp [pipelineStep, trackFocus, h, hs]
    · simp [pipelineStep, countType_fl_tick, h, hs, trackFocus, focusLossDurationOf]
  · intro start h hs hd
    constructor
    · simp [pipelineStep, trackFocus, h, hs]
    · have : ∀ d, focusLossDurationOf (some start) t.now = some d → ¬ 5000 < d := by
        intro d hdd
        simp only [focusLossDurationOf] at hdd
        split at hdd
        · cases hdd
          omega
        · cases hdd
      simp only [pipelineStep, countType_fl_tick, trackFocus, h, if_true, hs]
      cases hdd : focusLossDurationOf (some start) t.now with
      | none => simp
      | some d =>
        have := this d hdd
        simp [this]
  · intro start h hs hd
    constructor
    · simp [pipelineStep, trackFocus, h, hs]
    · have hdd : focusLossDurationOf (some start) t.now = some (t.now - start) := by
        simp only [focusLossDurationOf]
        rw [if_pos (by omega)]
      simp only [pipelineStep, countType_fl_tick, trackFocus, h, if_true, hs, hdd]
      simp [hd]

/-- Witness for `focusEmission_amended` at concrete inputs: a tick at 4 s of
continuous looking-away emits nothing; a tick at 6 s emits one event and
keeps the start time armed. -/
theorem focusEmission_amended_witness :
    ((pipelineStep { focusLossStart := some 0, dash := { noFaceStart := none, events := [] } }
        (lookAwayTick 4000)).focusLossStart = some 0 ∧
      countType .focus_lost
        (pipelineStep { focusLossStart := some 0, dash := { noFaceStart := none, events := [] } }
          (lookAwayTick 4000)).dash.events
        = countType .focus_lost ([] : List ProctoringEvent)) ∧
    ((pipelineStep { focusLossStart := some 0, dash := { noFaceStart := none, events := [] } }
        (lookAwayTick 6000)).focusLossStart = some 0 ∧
      countType .focus_lost
        (pipelineStep { focusLossStart := some 0, dash := { noFaceStart := none, events := [] } }
          (lookAwayTick 6000)).dash.events
        = countType .focus_lost ([] : List ProctoringEvent) + 1) := by
  constructor
  · exact (focusEmission_amended
      { focusLossStart := some 0, dash := { noFaceStart := none, events := [] } }
      (lookAwayTick 4000)).2.2.1 0 (by decide) (by decide) (by decide)
  · exact (focusEmission_amended
      { focusLossStart := some 0, dash := { noFaceStart := none, events := [] } }
      (lookAwayTick 6000)).2.2.2 0 (by decide) (by decide) (by decide)

/-- C5 counterexample.  First conjunct pair: a single continuous face absence
(ticks every second from `t = 0` to `t = 23000`) produces TWO `no_face`
events (at `t = 11000` and `t = 23000`), because firing resets `noFaceStart`
and the still-absent face re-arms the timer on the next tick — so the event
re-fires within the same continuous absence, contradicting "at most one per
continuous absence occurrence".  Last conjunct: absence sustained for exactly
10 s has produced no event (`duration > 10` is strict). -/
theorem noFaceEmission_cex :
    countType .no_face
        (runTicks initPipe ((List.range 24).map (fun i => absentTick (1000 * i)))).dash.events
      = 2 ∧
    countType .no_face
        (runTicks initPipe ((List.range 24).map (fun i => absentTick (1000 * i)))).dash.events
      ≠ 1 ∧
    countType .no_face (runTicks initPipe [absentTick 0, absentTick 10000]).dash.events = 0 := by
  decide

/-- C5 amended, per dashboard tick: a `no_face` event fires exactly when the
face has been absent for strictly more than 10 s since `noFaceStart` was
armed, with severity high and duration equal to the elapsed time; on firing
`noFaceStart` resets to unset — so the event does not re-fire every tick,
but it DOES re-fire after each further full >10 s stretch inside one
continuous absence (at most one event per >10 s window, not one per
occurrence); a present face clears the timer. -/
theorem noFaceEmission_amended :
    ∀ (a : AudioDetectionResult) (st : DashState) (now : Nat) (r : DetectionResult),
      (r.faceDetected = true →
        (handleDetectionResult a st now r).noFaceStart = none ∧
        countType .no_face (handleDetectionResult a st now r).events
          = countType .no_face st.events) ∧
      (r.faceDetected = false → st.noFaceStart = none →
        (handleDetectionResult a st now r).noFaceStart = some now ∧
        countType .no_face (handleDetectionResult a st now r).events
          = countType .no_face st.events) ∧
      (∀ s, r.faceDetected = false → st.noFaceStart = some s → now - s ≤ 10000 →
        (handleDetectionResult a st now r).noFaceStart = some s ∧
        countType .no_face (handleDetectionResult a st now r).events
          = countType .no_face st.events) ∧
      (∀ s, r.faceDetected = false → st.noFaceStart = some s → 10000 < now - s →
        (handleDetectionResult a st now r).noFaceStart = none ∧
        countType .no_face (handleDetectionResult a st now r).events
          = countType .no_face st.events + 1 ∧
        ({ type := .no_face, timestamp := now,
           description := "No face detected for " ++ toString (jsRound (now - s)) ++ " seconds",
           severity := .high, duration := some (now - s) } : ProctoringEvent)
          ∈ (handleDetectionResult a st now r).events) := by
  intro a st now r
  refine ⟨?_, ?_, ?_, ?_⟩
  · intro h
    rw [noFaceStart_tick, countType_nf_tick]
    simp [h]
  · intro h hs
    rw [noFaceStart_tick, countType_nf_tick]
    simp [h, hs]
  · intro s h hs hd
    rw [noFaceStart_tick, countType_nf_tick]
    simp only [h, hs, Bool.not_false, if_true]
    rw [if_neg (by omega), if_neg (by omega)]
    simp
  · intro s h hs hd
    refine ⟨?_, ?_, ?_⟩
    · rw [noFaceStart_tick]
      simp only [h, hs, Bool.not_false, if_true]
      rw [if_pos hd]
    · rw [countType_nf_tick]
      simp only [h, hs, Bool.not_false, if_true]
      rw [if_pos hd]
    · unfold handleDetectionResult
      apply mem_events_audioStep
      apply mem_events_objectsStep
      apply mem_events_facesStep
      unfold noFaceStep
      rw [noFaceStart_focusStep, hs]
      simp only [h, Bool.not_false, if_true]
      rw [if_pos hd]
      exact List.mem_cons_self _ _

/-- A detection result with no face and nothing else. -/
def absentResult : DetectionResult :=
  { faceDetected := false, faceCount := 0, objectsDetected := [],
    isLookingAway := false, focusLossDuration := none }

/-- Witness for `noFaceEmission_amended`: with the timer armed at 0, a tick
at `t = 11000` fires the high-severity `no_face` event with duration 11000 ms
and resets the timer; a tick at `t = 10000` fires nothing. -/
theorem noFaceEmission_amended_witness :
    ((handleDetectionResult quietAudio { noFaceStart := some 0, events := [] } 10000
        absentResult).noFaceStart = some 0 ∧
      countType .no_face (handleDetectionResult quietAudio
        { noFaceStart := some 0, events := [] } 10000 absentResult).events
        = countType .no_face ([] : List ProctoringEvent)) ∧
    ((handleDetectionResult quietAudio { noFaceStart := some 0, events := [] } 11000
        absentResult).noFaceStart = none ∧
      countType .no_face (handleDetectionResult quietAudio
        { noFaceStart := some 0, events := [] } 11000 absentResult).events
        = countType .no_face ([] : List ProctoringEvent) + 1 ∧
      ({ type := .no_face, timestamp := 11000,
         description := "No face detected for " ++ toString (jsRound 11000) ++ " seconds",
         severity := .high, duration := some 11000 } : ProctoringEvent)
        ∈ (handleDetectionResult quietAudio { noFaceStart := some 0, events := [] } 11000
            absentResult).events) := by
  constructor
  · exact (noFaceEmission_amended quietAudio { noFaceStart := some 0, events := [] } 10000
      absentResult).2.2.1 0 (by decide) (by decide) (by decide)
  · exact (noFaceEmission_amended quietAudio { noFaceStart := some 0, events := [] } 11000
      absentResult).2.2.2 0 (by decide) (by decide) (by decide)

/-! ## C10: the audio branch -/

/-- C10: on every tick whose audio snapshot reports multiple voices, the
dashboard appends an event of type `device_detected` with severity HIGH and
the fixed description — the newest entry of the log after the tick — in
addition to the `audio_detection` alert it raises through `addAlert`. -/
theorem audioDeviceEvent_spec :
    ∀ (a : AudioDetectionResult) (st : DashState) (now : Nat) (r : DetectionResult),
      a.multipleVoices = true →
      (handleDetectionResult a st now r).events.head?
        = some { type := .device_detected, timestamp := now,
                 description := "Multiple voices detected - possible unauthorized person",
                 severity := .high, duration := none } := by
  intro a st now r h
  unfold handleDetectionResult audioStep
  rw [if_pos h]
  rfl

/-- An audio snapshot reporting multiple voices. -/
def noisyAudio : AudioDetectionResult :=
  { backgroundNoise := false, multipleVoices := true }

/-- Witness for `audioDeviceEvent_spec` at a concrete tick. -/
theorem audioDeviceEvent_spec_witness :
    (handleDetectionResult noisyAudio { noFaceStart := none, events := [] } 5000
        absentResult).events.head?
      = some { type := .device_detected, timestamp := 5000,
               description := "Multiple voices detected - possible unauthorized person",
               severity := .high, duration := none } :=
  audioDeviceEvent_spec noisyAudio { noFaceStart := none, events := [] } 5000
    absentResult (by decide)

/-! ## C3: the object switch -/

/-- A tick with one face on which the raw object label "book" was detected. -/
def bookTick : RawTick :=
  { now := 0, isLookingAway := false, faceDetected := true, faceCount := 1,
    objectsDetected := ["book"], audio := quietAudio }

/-- C3 counterexample: `normalizeLabel` maps the raw labels "book", "paper"
and "notes" to the canonical label "notes", but the dashboard switch has no
case for "notes" — so a detected book yields a `device_detected` event
(description "Unauthorized device detected: notes") and ZERO `notes_detected`
events, contradicting the claimed {book, paper, notes} → `notes_detected`
mapping. -/
theorem objectClassifier_cex :
    normalizeLabel "book" = "notes" ∧
    normalizeLabel "paper" = "notes" ∧
    countType .notes_detected (runTicks initPipe [bookTick]).dash.events = 0 ∧
    countType .device_detected (runTicks initPipe [bookTick]).dash.events = 1 ∧
    (classifyObject 0 { noFaceStart := none, events := [] } "notes").events
      = [{ type := .device_detected, timestamp := 0,
           description := "Unauthorized device detected: notes",
           severity := .medium, duration := none }] := by
  decide

/-- C3 amended: the switch maps the lowercased label "phone" to
`phone_detected` (high); the lowercased labels "book" and "paper" to
`notes_detected` (medium); and EVERY other label — in particular the
canonical label "notes" that `normalizeLabel` yields for book/paper/notes
detections — to `device_detected` (medium) with the raw label embedded in
the description. -/
theorem objectClassifier_amended :
    ∀ (now : Nat) (st : DashState) (object : String),
      (jsToLower object = "phone" →
        classifyObject now st object
          = addEvent st .phone_detected now "Mobile phone detected in frame" .high none) ∧
      ((jsToLower object = "book" ∨ jsToLower object = "paper") →
        classifyObject now st object
          = addEvent st .notes_detected now "Books or notes detected" .medium none) ∧
      (jsToLower object ≠ "phone" → jsToLower object ≠ "book" → jsToLower object ≠ "paper" →
        classifyObject now st object
          = addEvent st .device_detected now
              ("Unauthorized device detected: " ++ object) .medium none) ∧
      normalizeLabel "book" = "notes" ∧ normalizeLabel "paper" = "notes" ∧
      normalizeLabel "notes" = "notes" := by
  intro now st object
  refine ⟨?_, ?_, ?_, by decide, by decide, by decide⟩
  · intro h
    simp [classifyObject, h]
  · intro h
    rcases h with h | h <;> simp [classifyObject, h]
  · intro h1 h2 h3
    simp [classifyObject, h1, h2, h3]

/-- Witness for `objectClassifier_amended` at the labels "phone", "book" and
"notes". -/
theorem objectClassifier_amended_witness :
    (classifyObject 7 { noFaceStart := none, events := [] } "phone"
        = addEvent { noFaceStart := none, events := [] } .phone_detected 7
            "Mobile phone detected in frame" .high none) ∧
    (classifyObject 7 { noFaceStart := none, events := [] } "book"
        = addEvent { noFaceStart := none, events := [] } .notes_detected 7
            "Books or notes detected" .medium none) ∧
    (classifyObject 7 { noFaceStart := none, events := [] } "notes"
        = addEvent { noFaceStart := none, events := [] } .device_detected 7
            "Unauthorized device detected: notes" .medium none) := by
  refine ⟨(objectClassifier_amended 7 _ "phone").1 (by decide),
    (objectClassifier_amended 7 _ "book").2.1 (Or.inl (by decide)),
    ?_⟩
  have := (objectClassifier_amended 7
    { noFaceStart := none, events := [] } "notes").2.2.1
    (by decide) (by decide) (by decide)
  simpa using this

/-! ## C6: `clearLog` -/

/-- `clearLog` in `ProctoringDashboard`: empty the log and, on the session
object, set `events` to `[]` and `integrityScore` to 100, spreading all the
other fields unchanged. -/
def clearLog (session : InterviewSession) : InterviewSession :=
  { session with events := [], integrityScore := 100 }

/-- C6: clearing the log empties `events`, sets the integrity score to
exactly 100, and leaves every other session field (id, candidateName,
startTime, endTime, status) unchanged — in particular an `active` session
stays `active`. -/
theorem clearLog_spec :
    ∀ s : InterviewSession,
      (clearLog s).events = [] ∧
      (clearLog s).integrityScore = 100 ∧
      (clearLog s).id = s.id ∧
      (clearLog s).candidateName = s.candidateName ∧
      (clearLog s).startTime = s.startTime ∧
      (clearLog s).endTime = s.endTime ∧
      (clearLog s).status = s.status := by
  intro s
  exact ⟨rfl, rfl, rfl, rfl, rfl, rfl, rfl⟩

/-! ## C8: the report endpoint

`GET /api/sessions/:id/report` in `server.js` builds `eventsByType` as six
`filter(...).length` counters and `totalEvents` as `events.length`. -/

/-- `Math.round` of a millisecond duration expressed in minutes
(`Math.round(ms / 1000 / 60)`). -/
def jsRoundMin (ms : Nat) : Nat :=
  (ms + 30000) / 60000

/-- The `eventsByType` object of the report. -/
structure ReportEventsByType where
  focusLost : Nat
  noFace : Nat
  multipleFaces : Nat
  phoneDetected : Nat
  notesDetected : Nat
  deviceDetected : Nat
deriving DecidableEq, Repr

/-- The six `session.events.filter((e) => e.type === ...).length` counters
of the report route. -/
def reportEventsByType (events : List ProctoringEvent) : ReportEventsByType :=
  { focusLost := (events.filter (fun e => e.type == .focus_lost)).length
    noFace := (events.filter (fun e => e.type == .no_face)).length
    multipleFaces := (events.filter (fun e => e.type == .multiple_faces)).length
    phoneDetected := (events.filter (fun e => e.type == .phone_detected)).length
    notesDetected := (events.filter (fun e => e.type == .notes_detected)).length
    deviceDetected := (events.filter (fun e => e.type == .device_detected)).length }

/-- The report object of `GET /api/sessions/:id/report`. -/
structure Report where
  sessionId : String
  candidateName : String
  startTime : Nat
  endTime : Option Nat
  duration : Nat
  integrityScore : Int
  totalEvents : Nat
  eventsByType : ReportEventsByType
  events : List ProctoringEvent
deriving DecidableEq, Repr

/-- The report route's handler on a found session (`now` is the request
time, used when the session has not ended). -/
def generateReport (session : InterviewSession) (now : Nat) : Report :=
  { sessionId := session.id
    candidateName := session.candidateName
    startTime := session.startTime
    endTime := session.endTime
    duration :=
      match session.endTime with
      | some endTime => jsRoundMin (endTime - session.startTime)
      | none => jsRoundMin (now - session.startTime)
    integrityScore := session.integrityScore
    totalEvents := session.events.length
    eventsByType := reportEventsByType session.events
    events := session.events }

theorem sum_countType_eq_length (l : List ProctoringEvent) :
    countType .focus_lost l + countType .no_face l + countType .multiple_faces l
      + countType .phone_detected l + countType .notes_detected l
      + countType .device_detected l = l.length := by
  induction l with
  | nil => simp [countType]
  | cons e t ih =>
    have hc : ∀ τ, countType τ (e :: t)
        = (if e.type == τ then 1 else 0) + countType τ t := by
      intro τ
      simp [countType, List.countP_cons]
      omega
    rw [hc, hc, hc, hc, hc, hc, List.length_cons]
    cases e.type <;> simp <;> omega

/-- C8: for every session, the report's `eventsByType` carries exactly the
six per-type counters (a type with no events contributes count 0), each equal
to the number of events of that type, and their sum equals `totalEvents`,
which equals the length of the session's event list. -/
theorem report_spec :
    ∀ (s : InterviewSession) (now : Nat),
      (generateReport s now).totalEvents = s.events.length ∧
      (generateReport s now).eventsByType.focusLost = countType .focus_lost s.events ∧
      (generateReport s now).eventsByType.noFace = countType .no_face s.events ∧
      (generateReport s now).eventsByType.multipleFaces
        = countType .multiple_faces s.events ∧
      (generateReport s now).eventsByType.phoneDetected
        = countType .phone_detected s.events ∧
      (generateReport s now).eventsByType.notesDetected
        = countType .notes_detected s.events ∧
      (generateReport s now).eventsByType.deviceDetected
        = countType .device_detected s.events ∧
      (generateReport s now).eventsByType.focusLost
          + (generateReport s now).eventsByType.noFace
          + (generateReport s now).eventsByType.multipleFaces
          + (generateReport s now).eventsByType.phoneDetected
          + (generateReport s now).eventsByType.notesDetected
          + (generateReport s now).eventsByType.deviceDetected
        = (generateReport s now).totalEvents := by
  intro s now
  have hfilter : ∀ τ, (s.events.filter (fun e => e.type == τ)).length
      = countType τ s.events := by
    intro τ
    simp [countType, List.countP_eq_length_filter]
  refine ⟨rfl, hfilter _, hfilter _, hfilter _, hfilter _, hfilter _, hfilter _, ?_⟩
  show (s.events.filter (fun e => e.type == .focus_lost)).length
      + (s.events.filter (fun e => e.type == .no_face)).length
      + (s.events.filter (fun e => e.type == .multiple_faces)).length
      + (s.events.filter (fun e => e.type == .phone_detected)).length
      + (s.events.filter (fun e => e.type == .notes_detected)).length
      + (s.events.filter (fun e => e.type == .device_detected)).length
      = s.events.length
  rw [hfilter, hfilter, hfilter, hfilter, hfilter, hfilter]
  exact sum_countType_eq_length s.events

/-! ## C9: session start validation -/

/-- `POST /api/sessions` in `server.js`: `if (!candidateName)` rejects a
missing body field and the falsy empty string; otherwise a fresh session is
saved with score 100 and no events. -/
def createSessionRoute (candidateName : Option String) (sessionId : String)
    (now : Nat) : Except String InterviewSession :=
  match candidateName with
  | none => .error "Candidate name is required"
  | some name =>
    if name = "" then .error "Candidate name is required"
    else
      .ok { id := sessionId, candidateName := name, startTime := now, endTime := none,
            status := .active, integrityScore := 100, events := [] }

/-- `startSession` in `ProctoringDashboard`: `if (!candidateName.trim())`
bail out before calling the API (no session state, no event log); otherwise
POST the trimmed name and, on success, install the created session with an
empty local event log (the `catch` branch installs nothing). -/
def startSession (candidateName : String) (sessionId : String) (now : Nat) :
    Option (InterviewSession × List ProctoringEvent) :=
  if jsTrim candidateName == "" then none
  else
    match createSessionRoute (some (jsTrim candidateName)) sessionId now with
    | .ok created => some ({ created with events := [] }, [])
    | .error _ => none

/-- C9: starting a session with an empty or whitespace-only candidate name
is rejected before any session is created — `startSession` installs no local
state — and the backend route answers with an error, saving nothing, when
`candidateName` is absent (or the falsy empty string). -/
theorem startSession_spec :
    (∀ (name sessionId : String) (now : Nat),
      jsTrim name = "" → startSession name sessionId now = none) ∧
    (∀ (sessionId : String) (now : Nat),
      createSessionRoute none sessionId now = .error "Candidate name is required") ∧
    (∀ (sessionId : String) (now : Nat),
      createSessionRoute (some "") sessionId now = .error "Candidate name is required") := by
  refine ⟨?_, fun _ _ => rfl, fun _ _ => rfl⟩
  intro name sessionId now h
  simp [startSession, h]

/-- Witness for `startSession_spec`: a whitespace-only name is rejected. -/
theorem startSession_spec_witness :
    startSession "   " "session-1" 0 = none :=
  startSession_spec.1 "   " "session-1" 0 (by decide)

/-! ## C7: the alert cooldown manager (`useAlerts.addAlert`)

`useAlerts` keeps `alerts` (newest first, capped at 50 by
`[alert, ...prev.slice(0, 49)]`) and the `alertCooldowns` map from alert
type to the last accepted `Date.now()`.  The map is modelled as an
association list whose `set` prepends (first match wins, like `Map.get`).
The JS guard is `if (lastAlert && now - lastAlert < COOLDOWN_DURATION)`;
note that a `lastAlert` equal to the number 0 is falsy, which the embedding
keeps (`Date.now()` is never 0 on a real clock, whence the positivity
hypotheses below). -/

/-- `Alert` from `useAlerts.ts` (the `id` string is derived, omitted). -/
structure Alert where
  type : String
  message : String
  severity : Severity
  timestamp : Nat
  acknowledged : Bool
deriving DecidableEq, Repr

/-- One `addAlert(type, message, severity)` call with its `Date.now()`. -/
structure AlertCall where
  now : Nat
  type : String
  message : String
  severity : Severity
deriving DecidableEq, Repr

/-- The state of the `useAlerts` hook. -/
structure AlertsState where
  alerts : List Alert
  alertCooldowns : List (String × Nat)
deriving DecidableEq, Repr

/-- `COOLDOWN_DURATION = 5000` ms in `useAlerts.ts`. -/
def COOLDOWN_DURATION : Nat := 5000

/-- The early-return guard of `addAlert`. -/
def alertRejected (st : AlertsState) (c : AlertCall) : Bool :=
  match st.alertCooldowns.lookup c.type with
  | some lastAlert => lastAlert != 0 && decide (c.now - lastAlert < COOLDOWN_DURATION)
  | none => false

/-- `addAlert` from `useAlerts.ts`: no-op inside the cooldown window,
otherwise record `now` for the type and prepend the alert, keeping at most
50 entries (toast and sound are stateless side effects). -/
def addAlert (st : AlertsState) (c : AlertCall) : AlertsState :=
  if alertRejected st c then st
  else
    { alerts := { type := c.type, message := c.message, severity := c.severity,
                  timestamp := c.now, acknowledged := false } :: st.alerts.take 49
      alertCooldowns := (c.type, c.now) :: st.alertCooldowns }

/-- Run a sequence of `addAlert` calls, returning the final state and the
sublist of accepted calls in call order. -/
def processAlerts (st : AlertsState) : List AlertCall → AlertsState × List AlertCall
  | [] => (st, [])
  | c :: cs =>
    let r := processAlerts (addAlert st c) cs
    if alertRejected st c then (r.1, r.2) else (r.1, c :: r.2)

theorem addAlert_of_rejected (st : AlertsState) (c : AlertCall)
    (h : alertRejected st c = true) : addAlert st c = st := by
  simp [addAlert, h]

theorem processAlerts_spacing (calls : List AlertCall) :
    ∀ st : AlertsState,
      (∀ c ∈ calls, 0 < c.now) →
      List.Pairwise (fun a b : AlertCall => a.now ≤ b.now) calls →
      (∀ ty t, st.alertCooldowns.lookup ty = some t →
        0 < t ∧ ∀ c ∈ calls, t ≤ c.now) →
      List.Pairwise
          (fun a b : AlertCall => a.type = b.type → a.now + COOLDOWN_DURATION ≤ b.now)
          (processAlerts st calls).2 ∧
      (∀ a ∈ (processAlerts st calls).2, ∀ t,
        st.alertCooldowns.lookup a.type = some t → t + COOLDOWN_DURATION ≤ a.now) := by
  induction calls with
  | nil =>
    intro st _ _ _
    exact ⟨List.Pairwise.nil, by simp [processAlerts]⟩
  | cons c cs ih =>
    intro st hpos hsorted hinv
    have hpos' : ∀ c' ∈ cs, 0 < c'.now := fun c' hc' => hpos c' (List.mem_cons_of_mem _ hc')
    have hhead : ∀ b ∈ cs, c.now ≤ b.now := (List.pairwise_cons.mp hsorted).1
    have hsorted' : List.Pairwise (fun a b : AlertCall => a.now ≤ b.now) cs :=
      (List.pairwise_cons.mp hsorted).2
    cases hrej : alertRejected st c with
    | true =>
      have hstep : addAlert st c = st := addAlert_of_rejected st c hrej
      have hp : (processAlerts st (c :: cs)).2 = (processAlerts st cs).2 := by
        simp [processAlerts, hrej, hstep]
      have hinv' : ∀ ty t, st.alertCooldowns.lookup ty = some t →
          0 < t ∧ ∀ c' ∈ cs, t ≤ c'.now := by
        intro ty t ht
        exact ⟨(hinv ty t ht).1, fun c' hc' => (hinv ty t ht).2 c' (List.mem_cons_of_mem _ hc')⟩
      have := ih st hpos' hsorted' hinv'
      rw [hp]
      exact ⟨this.1, fun a ha t ht => this.2 a ha t ht⟩
    | false =>
      have hstep : addAlert st c
          = { alerts := { type := c.type, message := c.message, severity := c.severity,
                          timestamp := c.now, acknowledged := false } :: st.alerts.take 49
              alertCooldowns := (c.type, c.now) :: st.alertCooldowns } := by
        simp [addAlert, hrej]
      have hp : (processAlerts st (c :: cs)).2 = c :: (processAlerts (addAlert st c) cs).2 := by
        simp [processAlerts, hrej]
      have hlookup' : ∀ ty, (addAlert st c).alertCooldowns.lookup ty
          = if ty = c.type then some c.now else st.alertCooldowns.lookup ty := by
        intro ty
        rw [hstep]
        simp only [List.lookup]
        split
        · rename_i heq
          rw [if_pos (by simpa [beq_iff_eq] using heq)]
        · rename_i heq
          rw [if_neg (by simpa [beq_iff_eq] using heq)]
      have hinv' : ∀ ty t, (addAlert st c).alertCooldowns.lookup ty = some t →
          0 < t ∧ ∀ c' ∈ cs, t ≤ c'.now := by
        intro ty t ht
        rw [hlookup'] at ht
        by_cases hty : ty = c.type
        · rw [if_pos hty] at ht
          cases ht
          exact ⟨hpos c (List.mem_cons_self _ _), hhead⟩
        · rw [if_neg hty] at ht
          exact ⟨(hinv ty t ht).1, fun c' hc' => (hinv ty t ht).2 c' (List.mem_cons_of_mem _ hc')⟩
      have hIH := ih (addAlert st c) hpos' hsorted' hinv'
      have hacc : ∀ t, st.alertCooldowns.lookup c.type = some t →
          t + COOLDOWN_DURATION ≤ c.now := by
        intro t ht
        have h0 : 0 < t := (hinv c.type t ht).1
        have hle : t ≤ c.now := (hinv c.type t ht).2 c (List.mem_cons_self _ _)
        have : ¬(t ≠ 0 ∧ c.now - t < COOLDOWN_DURATION) := by
          intro hcontra
          have : alertRejected st c = true := by
            simp only [alertRejected, ht, Bool.and_eq_true, bne_iff_ne, decide_eq_true_eq]
            exact ⟨hcontra.1, hcontra.2⟩
          rw [this] at hrej
          cases hrej
        have hge : ¬(c.now - t < COOLDOWN_DURATION) := by
          intro hlt
          exact this ⟨by omega, hlt⟩
        omega
      rw [hp]
      constructor
      · rw [List.pairwise_cons]
        refine ⟨?_, hIH.1⟩
        intro b hb hty
        have := hIH.2 b hb c.now (by rw [hlookup', if_pos hty.symm])
        omega
      · intro a ha t ht
        rcases List.mem_cons.mp ha with rfl | ha'
        · exact hacc t ht
        · by_cases hty : a.type = c.type
          · have h1 := hIH.2 a ha' c.now (by rw [hlookup', if_pos hty])
            have h2 : t ≤ c.now := by
              rw [hty] at ht
              exact (hinv c.type t ht).2 c (List.mem_cons_self _ _)
            omega
          · exact hIH.2 a ha' t (by rw [hlookup', if_neg hty]; exact ht)

/-- C7: `addAlert` is a no-op when the call arrives within 5000 ms of the
type's last accepted alert; otherwise it records the call time as the type's
last-fired timestamp and prepends the alert (capped at 50); consequently,
starting from the fresh hook state, any two accepted alerts of the same type
are at least 5000 ms apart (call times positive and nondecreasing, as
`Date.now()` is). -/
theorem alertCooldown_spec :
    (∀ (st : AlertsState) (c : AlertCall) (lastAlert : Nat),
      st.alertCooldowns.lookup c.type = some lastAlert → 0 < lastAlert →
      c.now - lastAlert < COOLDOWN_DURATION → addAlert st c = st) ∧
    (∀ (st : AlertsState) (c : AlertCall), alertRejected st c = false →
      (addAlert st c).alertCooldowns.lookup c.type = some c.now ∧
      (addAlert st c).alerts
        = { type := c.type, message := c.message, severity := c.severity,
            timestamp := c.now, acknowledged := false } :: st.alerts.take 49) ∧
    (∀ calls : List AlertCall,
      (∀ c ∈ calls, 0 < c.now) →
      List.Pairwise (fun a b : AlertCall => a.now ≤ b.now) calls →
      List.Pairwise
        (fun a b : AlertCall => a.type = b.type → a.now + COOLDOWN_DURATION ≤ b.now)
        (processAlerts { alerts := [], alertCooldowns := [] } calls).2) := by
  refine ⟨?_, ?_, ?_⟩
  · intro st c lastAlert hl h0 hlt
    apply addAlert_of_rejected
    simp only [alertRejected, hl, Bool.and_eq_true, bne_iff_ne, decide_eq_true_eq]
    exact ⟨by omega, hlt⟩
  · intro st c hrej
    simp only [addAlert, hrej, Bool.false_eq_true, if_false]
    constructor
    · simp [List.lookup]
    · trivial
  · intro calls hpos hsorted
    exact (processAlerts_spacing calls { alerts := [], alertCooldowns := [] } hpos hsorted
      (by intro ty t ht; simp [List.lookup] at ht)).1

/-- A first concrete alert call. -/
def aCall1 : AlertCall := { now := 1000, type := "phone_detected", message := "m1", severity := .high }

/-- A second call of the same type 2000 ms later (inside the window). -/
def aCall2 : AlertCall := { now := 3000, type := "phone_detected", message := "m2", severity := .high }

/-- A third call of the same type 6000 ms after the first (outside). -/
def aCall3 : AlertCall := { now := 7000, type := "phone_detected", message := "m3", severity := .high }

/-- Witness for `alertCooldown_spec`: after an accepted alert at `t = 1000`,
a same-type call at `t = 3000` is a no-op; the first call updates the
cooldown map; and over the concrete three-call trace the accepted alerts are
≥ 5000 ms apart. -/
theorem alertCooldown_spec_witness :
    addAlert (addAlert { alerts := [], alertCooldowns := [] } aCall1) aCall2
      = addAlert { alerts := [], alertCooldowns := [] } aCall1 ∧
    (addAlert { alerts := [], alertCooldowns := [] } aCall1).alertCooldowns.lookup
      "phone_detected" = some 1000 ∧
    List.Pairwise
      (fun a b : AlertCall => a.type = b.type → a.now + COOLDOWN_DURATION ≤ b.now)
      (processAlerts { alerts := [], alertCooldowns := [] } [aCall1, aCall2, aCall3]).2 := by
  refine ⟨?_, ?_, ?_⟩
  · exact alertCooldown_spec.1 _ aCall2 1000 (by decide) (by decide) (by decide)
  · exact (alertCooldown_spec.2.1 { alerts := [], alertCooldowns := [] } aCall1 (by decide)).1
  · exact alertCooldown_spec.2.2 [aCall1, aCall2, aCall3] (by decide) (by decide)

/-! ## C2: per-tick event emission for every event type

The number of events of each type a tick appends is a function of the
tick's own inputs (and the no-face tracker state) alone — `addEvent` never
consults the log or any last-append timestamp, so no per-type event
cooldown exists for any of the six types. -/

/-- The event type of the `switch (object.toLowerCase())` outcome for one
detected object label. -/
def objectEventType (ob : String) : EventType :=
  if jsToLower ob == "phone" then .phone_detected
  else if jsToLower ob == "book" || jsToLower ob == "paper" then .notes_detected
  else .device_detected

/-- How many events of type `τ` one `handleDetectionResult` tick appends,
read off the five blocks of the function (the sum of the focus-loss,
no-face, multiple-faces, object-loop and audio contributions).  It depends
only on the tick's inputs and `noFaceStart` — on nothing appended before. -/
def emitCount (τ : EventType) (a : AudioDetectionResult) (noFaceStart : Option Nat)
    (now : Nat) (r : DetectionResult) : Nat :=
  (if r.isLookingAway then
    match r.focusLossDuration with
    | some d => if 5000 < d then (if EventType.focus_lost = τ then 1 else 0) else 0
    | none => 0
  else 0)
  + (if !r.faceDetected then
      match noFaceStart with
      | some start =>
        if 10000 < now - start then (if EventType.no_face = τ then 1 else 0) else 0
      | none => 0
    else 0)
  + (if 1 < r.faceCount then (if EventType.multiple_faces = τ then 1 else 0) else 0)
  + r.objectsDetected.countP (fun ob => objectEventType ob == τ)
  + (if a.multipleVoices then (if EventType.device_detected = τ then 1 else 0) else 0)

theorem countType_focusStep_eq (τ : EventType) (st : DashState) (now : Nat)
    (r : DetectionResult) :
    countType τ (focusStep st now r).events
      = countType τ st.events
        + (if r.isLookingAway then
            match r.focusLossDuration with
            | some d => if 5000 < d then (if EventType.focus_lost = τ then 1 else 0) else 0
            | none => 0
          else 0) := by
  unfold focusStep
  split
  · cases r.focusLossDuration with
    | none => simp
    | some d =>
      dsimp only
      split
      · rw [countType_addEvent]
      · simp
  · simp

theorem countType_noFaceStep_eq (τ : EventType) (st : DashState) (now : Nat)
    (r : DetectionResult) :
    countType τ (noFaceStep st now r).events
      = countType τ st.events
        + (if !r.faceDetected then
            match st.noFaceStart with
            | some start =>
              if 10000 < now - start then (if EventType.no_face = τ then 1 else 0) else 0
            | none => 0
          else 0) := by
  unfold noFaceStep
  split
  · cases hs : st.noFaceStart with
    | none => simp
    | some start =>
      dsimp only
      split
      · rw [countType_addEvent]
      · simp
  · simp

theorem countType_facesStep_eq (τ : EventType) (st : DashState) (now : Nat)
    (r : DetectionResult) :
    countType τ (facesStep st now r).events
      = countType τ st.events
        + (if 1 < r.faceCount then (if EventType.multiple_faces = τ then 1 else 0) else 0) := by
  unfold facesStep
  split
  · rw [countType_addEvent]
  · simp

theorem countType_classifyObject_eq (τ : EventType) (now : Nat) (st : DashState)
    (ob : String) :
    countType τ (classifyObject now st ob).events
      = countType τ st.events + (if objectEventType ob = τ then 1 else 0) := by
  unfold classifyObject objectEventType
  split
  · rw [countType_addEvent]
  · split
    · rw [countType_addEvent]
    · rw [countType_addEvent]

theorem countType_objectsStep_eq (τ : EventType) (st : DashState) (now : Nat)
    (r : DetectionResult) :
    countType τ (objectsStep st now r).events
      = countType τ st.events
        + r.objectsDetected.countP (fun ob => objectEventType ob == τ) := by
  unfold objectsStep
  generalize r.objectsDetected = l
  induction l generalizing st with
  | nil => simp
  | cons ob t ihl =>
    simp only [List.foldl_cons, List.countP_cons]
    rw [ihl, countType_classifyObject_eq]
    by_cases h : objectEventType ob = τ
    · simp [h]
      omega
    · simp [h]

theorem countType_audioStep_eq (τ : EventType) (a : AudioDetectionResult)
    (st : DashState) (now : Nat) :
    countType τ (audioStep a st now).events
      = countType τ st.events
        + (if a.multipleVoices then (if EventType.device_detected = τ then 1 else 0) else 0) := by
  unfold audioStep
  split
  · rw [countType_addEvent]
  · simp

theorem countType_tick_eq (τ : EventType) (a : AudioDetectionResult) (st : DashState)
    (now : Nat) (r : DetectionResult) :
    countType τ (handleDetectionResult a st now r).events
      = countType τ st.events + emitCount τ a st.noFaceStart now r := by
  unfold handleDetectionResult emitCount
  rw [countType_audioStep_eq, countType_objectsStep_eq, countType_facesStep_eq,
      countType_noFaceStep_eq, countType_focusStep_eq, noFaceStart_focusStep]
  omega

/-- C2 amended: events are appended with NO per-type cooldown, for every
event type.  (1) The number of events of type `τ` a tick appends is
`emitCount`, a function of the tick's own inputs and tracker state only —
independent of the log and of when events were last appended; (2) hence two
ticks that each produce exactly one candidate event of the same type append
two events of that type, whatever the spacing of their timestamps; (3) the
5000 ms per-type cooldown exists only for ephemeral alerts:
`useAlerts.addAlert` — not `addEvent` — is the no-op inside the window. -/
theorem eventCooldown_amended :
    (∀ (τ : EventType) (a : AudioDetectionResult) (st : DashState) (now : Nat)
        (r : DetectionResult),
      countType τ (handleDetectionResult a st now r).events
        = countType τ st.events + emitCount τ a st.noFaceStart now r) ∧
    (∀ (τ : EventType) (a1 a2 : AudioDetectionResult) (st : DashState) (now1 now2 : Nat)
        (r1 r2 : DetectionResult),
      emitCount τ a1 st.noFaceStart now1 r1 = 1 →
      emitCount τ a2 (handleDetectionResult a1 st now1 r1).noFaceStart now2 r2 = 1 →
      countType τ
          (handleDetectionResult a2 (handleDetectionResult a1 st now1 r1) now2 r2).events
        = countType τ st.events + 2) ∧
    (∀ (stA : AlertsState) (c : AlertCall) (lastAlert : Nat),
      stA.alertCooldowns.lookup c.type = some lastAlert → 0 < lastAlert →
      c.now - lastAlert < COOLDOWN_DURATION → addAlert stA c = stA) := by
  refine ⟨countType_tick_eq, ?_, ?_⟩
  · intro τ a1 a2 st now1 now2 r1 r2 h1 h2
    rw [countType_tick_eq, countType_tick_eq, h1, h2]
  · intro stA c lastAlert hl h0 hlt
    apply addAlert_of_rejected
    simp only [alertRejected, hl, Bool.and_eq_true, bne_iff_ne, decide_eq_true_eq]
    exact ⟨by omega, hlt⟩

/-- A detection result whose only signal is a (normalized) "phone" label. -/
def phoneResult : DetectionResult :=
  { faceDetected := true, faceCount := 1, objectsDetected := ["phone"],
    isLookingAway := false, focusLossDuration := none }

/-- Witness for `eventCooldown_amended`, exercising two different event
types and the alert no-op: two two-face ticks 1000 ms apart append two
`multiple_faces` events; two phone ticks 1000 ms apart append two
`phone_detected` events; a same-type alert call 2000 ms after an accepted
one is a no-op. -/
theorem eventCooldown_amended_witness :
    countType .multiple_faces
        (handleDetectionResult quietAudio
          (handleDetectionResult quietAudio { noFaceStart := none, events := [] } 0
            twoFacesResult) 1000 twoFacesResult).events
      = countType .multiple_faces ([] : List ProctoringEvent) + 2 ∧
    countType .phone_detected
        (handleDetectionResult quietAudio
          (handleDetectionResult quietAudio { noFaceStart := none, events := [] } 0
            phoneResult) 1000 phoneResult).events
      = countType .phone_detected ([] : List ProctoringEvent) + 2 ∧
    addAlert { alerts := [], alertCooldowns := [("phone_detected", 1000)] } aCall2
      = { alerts := [], alertCooldowns := [("phone_detected", 1000)] } := by
  refine ⟨?_, ?_, ?_⟩
  · exact eventCooldown_amended.2.1 .multiple_faces quietAudio quietAudio
      { noFaceStart := none, events := [] } 0 1000 twoFacesResult twoFacesResult
      (by decide) (by decide)
  · exact eventCooldown_amended.2.1 .phone_detected quietAudio quietAudio
      { noFaceStart := none, events := [] } 0 1000 phoneResult phoneResult
      (by decide) (by decide)
  · exact eventCooldown_amended.2.2
      { alerts := [], alertCooldowns := [("phone_detected", 1000)] } aCall2 1000
      (by decide) (by decide) (by decide)

end FocusGuard
